import Mathlib

/-!
A verification development for the gift detection-and-acquisition engine of
the telegram_gifts_userbot repository (src/giftService.js, src/config.js,
src/telegramController.js).

The JavaScript service is embedded shallowly:
  * `GiftService` mutable fields become the record `GiftServiceState`;
    `checkAndPurchaseGifts` becomes a pure step function taking the current
    wall-clock time (`Date.now()`) and the result of
    `checkerClient.getStarGiftOptions()` (`none` models a thrown fetch error)
    as explicit inputs, and returning the new state together with the list of
    gifts reported as newly discovered and the list handed to the purchase
    dispatcher.
  * JS `Set` / `Map` (insertion ordered) become association lists with
    append-if-absent insertion.
  * JS truthiness on numbers (`x || d` where 0, null and undefined are falsy)
    is modelled by `jsOrNat` / `jsOrNum`.
  * The network call `client.sendStarGift` is modelled by an oracle
    `Nat → CallResult` giving the outcome of the n-th call made by one
    identity for one gift; `purchaseGift` and `_attemptGiftPurchase` become
    structurally recursive loops that also count the calls issued.
Gift ids are carried by the source as BigInt and always compared through
`.toString()`; the embedding keeps the id as a natural number and compares
the decimal string `giftKey`.
-/

namespace GiftBot

/-- Availability block of a gift: `total` is `none` when the field is absent
or null in the catalog item (the source reads `gift.availability.total`). -/
structure Availability where
  total : Option Nat
  remaining : Option Nat
deriving DecidableEq, Repr

/-- A catalog item as used by giftService.js: only the fields the engine
reads are kept (`id`, `title`, `availability`). -/
structure Gift where
  id : Nat
  title : String
  availability : Option Availability
deriving DecidableEq, Repr

/-- `gift.id.toString()` — the string key under which a gift is cached. -/
def giftKey (g : Gift) : String :=
  Nat.repr g.id

/-- JS `v || d` for an optional number `v`: null/undefined and 0 are falsy. -/
def jsOrNat (v : Option Nat) (d : Nat) : Nat :=
  match v with
  | some n => if n = 0 then d else n
  | none => d

/-- JS `a || d` for a number `a`: 0 is falsy. -/
def jsOrNum (a d : Nat) : Nat :=
  if a = 0 then d else a

/-- The runtime configuration fields read by the engine
(src/config.js builds them; giftService.js reads them). -/
structure Config where
  checkIntervalMs : Nat
  maxGiftSupply : Nat
  maxGiftsToBuy : Option Nat
  autoBuyEnabled : Bool
  testGiftId : Option String
deriving DecidableEq, Repr

/-- src/config.js line 64: `maxGiftsToBuy: configData.maxGiftsToBuy || 30`. -/
def configMaxGiftsToBuy (raw : Option Nat) : Nat :=
  jsOrNat raw 30

/-- The mutable fields of `GiftService` (constructor, giftService.js 11-21). -/
structure GiftServiceState where
  isCheckingGifts : Bool
  lastCheckTime : Nat
  giftIdsCache : List String
  giftsMap : List (String × Gift)
  testGiftProcessed : Bool
deriving DecidableEq, Repr

/-- The state set up by the constructor. -/
def initialState : GiftServiceState :=
  { isCheckingGifts := false
    lastCheckTime := 0
    giftIdsCache := []
    giftsMap := []
    testGiftProcessed := false }

/-- JS `Set.add`: append the element unless already present. -/
def setAdd (c : List String) (x : String) : List String :=
  if x ∈ c then c else c ++ [x]

/-- JS `Map.set`: overwrite the first binding of the key in place,
else append a new binding. -/
def mapSet (m : List (String × Gift)) (k : String) (v : Gift) : List (String × Gift) :=
  match m with
  | [] => [(k, v)]
  | (k', v') :: rest => if k' = k then (k, v) :: rest else (k', v') :: mapSet rest k v

/-- JS `Map.get`: value of the first binding of the key, if any. -/
def mapGet (m : List (String × Gift)) (k : String) : Option Gift :=
  match m with
  | [] => none
  | (k', v) :: rest => if k' = k then some v else mapGet rest k

/-- One iteration of the caching loops (giftService.js 60-62 and 78-80):
`giftIdsCache.add(giftId); giftsMap.set(giftId, gift)`. -/
def cacheGift (s : GiftServiceState) (g : Gift) : GiftServiceState :=
  { s with
    giftIdsCache := setAdd s.giftIdsCache (giftKey g)
    giftsMap := mapSet s.giftsMap (giftKey g) g }

/-- The caching loop over a list of gifts. -/
def cacheGifts (s : GiftServiceState) (gifts : List Gift) : GiftServiceState :=
  gifts.foldl cacheGift s

/-- The `newGifts` filter predicate (giftService.js 67-70):
`!giftIdsCache.has(id) || (testGiftId && id === testGiftId && !testGiftProcessed)`.
(The config layer guarantees `testGiftId` is a nonempty numeric string when
set, so modelling its truthiness by `Option` matching is exact.) -/
def isNewGift (cfg : Config) (s : GiftServiceState) (g : Gift) : Bool :=
  !(decide (giftKey g ∈ s.giftIdsCache)) ||
    (match cfg.testGiftId with
     | some t => decide (giftKey g = t) && !s.testGiftProcessed
     | none => false)

/-- The test-gift bookkeeping (giftService.js 72-75): if a test id is
configured and occurs among the new gifts, set `testGiftProcessed`. -/
def markTestProcessed (cfg : Config) (s : GiftServiceState) (newGifts : List Gift) :
    GiftServiceState :=
  match cfg.testGiftId with
  | some t =>
    if newGifts.any fun g => decide (giftKey g = t) then
      { s with testGiftProcessed := true }
    else s
  | none => s

/-- Effective total used by the low-supply filter and sort
(giftService.js 90 and 92): `gift.availability.total || 10000000`.
Only ever evaluated when `availability` is present; `10000000` is returned
for an absent block so the function is total. -/
def effectiveTotal (g : Gift) : Nat :=
  match g.availability with
  | some a => jsOrNat a.total 10000000
  | none => 10000000

/-- The selection policy (giftService.js 88-93): keep gifts with an
`availability` block whose effective total is at most `maxGiftSupply`, then
sort ascending by effective total (JS `Array.prototype.sort` is stable and
the comparator is `(a, b) => effA - effB`). -/
def lowSupplyGifts (maxGiftSupply : Nat) (newGifts : List Gift) : List Gift :=
  (newGifts.filter fun g =>
      g.availability.isSome && decide (effectiveTotal g ≤ maxGiftSupply)).mergeSort
    fun a b => decide (effectiveTotal a ≤ effectiveTotal b)

/-- Result of one invocation of `checkAndPurchaseGifts`:
the state after the call, whether a snapshot fetch was issued, the gifts
reported as newly discovered (`Found new gift` / `notifyNewGift`,
giftService.js 77-85), and the ordered list handed to
`purchaseGiftsWithAllClients` (giftService.js 95-97). -/
structure PollResult where
  state : GiftServiceState
  fetched : Bool
  discovered : List Gift
  purchaseTargets : List Gift
deriving DecidableEq, Repr

/-- `checkAndPurchaseGifts` (giftService.js 27-105) as a pure step function.
`now` is `Date.now()` at entry; `fetchResult` is the outcome of
`getStarGiftOptions()` (`none` = the call threw; the error is caught at line
100 and the `finally` block releases the guard). The returned state always
has `isCheckingGifts = false` because the function models one completed
call; a state with `isCheckingGifts = true` models a call observed while a
previous one is still in flight. -/
def checkAndPurchaseGifts (cfg : Config) (s : GiftServiceState) (now : Nat)
    (fetchResult : Option (List Gift)) : PollResult :=
  if s.isCheckingGifts then
    ⟨s, false, [], []⟩
  else if now - s.lastCheckTime < cfg.checkIntervalMs then
    ⟨s, false, [], []⟩
  else
    let s1 := { s with lastCheckTime := now }
    match fetchResult with
    | none => ⟨s1, true, [], []⟩
    | some availableGifts =>
      if s1.giftIdsCache.length = 0 then
        ⟨cacheGifts s1 availableGifts, true, [], []⟩
      else
        let newGifts := availableGifts.filter (isNewGift cfg s1)
        let s2 := markTestProcessed cfg s1 newGifts
        let s3 := cacheGifts s2 newGifts
        let targets :=
          if cfg.autoBuyEnabled && decide (0 < newGifts.length) then
            lowSupplyGifts cfg.maxGiftSupply newGifts
          else []
        ⟨s3, true, newGifts, targets⟩

/-- A sequence of poll invocations: each entry is `(now, fetchResult)`.
Returns the final state and the concatenation of the discovery reports. -/
def runPolls (cfg : Config) (s : GiftServiceState) :
    List (Nat × Option (List Gift)) → GiftServiceState × List Gift
  | [] => (s, [])
  | (now, fetch) :: rest =>
    let r := checkAndPurchaseGifts cfg s now fetch
    let (sEnd, ds) := runPolls cfg r.state rest
    (sEnd, r.discovered ++ ds)

/-- Outcome of one `client.sendStarGift` call: success, or a thrown error
carrying its message string. -/
inductive CallResult where
  | ok : CallResult
  | err : String → CallResult
deriving DecidableEq, Repr

/-- The terminal-error marker table (giftService.js 183-188). -/
def nonRetryableErrors : List String :=
  ["USAGE_LIMITED", "PREMIUM", "BALANCE_TOO_LOW", "is not found in local cache"]

/-- Whether `pat` occurs at the start of `hay` (character lists). -/
def charsStart : List Char → List Char → Bool
  | [], _ => true
  | _ :: _, [] => false
  | a :: as, b :: bs => a = b && charsStart as bs

/-- Whether `pat` occurs contiguously anywhere in `hay` (character lists). -/
def charsContain (pat : List Char) : List Char → Bool
  | [] => charsStart pat []
  | b :: bs => charsStart pat (b :: bs) || charsContain pat bs

/-- JS `msg.includes(pat)`: substring containment on strings. -/
def strIncludes (msg pat : String) : Bool :=
  charsContain pat.toList msg.toList

/-- `_shouldStopRetrying` (giftService.js 317-325): the error message
contains one of the non-retryable markers.  The JS guard for a missing
message is dropped: the oracle always supplies a message string. -/
def shouldStopRetrying (msg : String) (markers : List String) : Bool :=
  markers.any fun errorText => strIncludes msg errorText

/-- The result object of `_attemptGiftPurchase` (giftService.js 302-307);
`attempt` is the number of `sendStarGift` calls issued by this unit. -/
structure AttemptResult where
  success : Bool
  attempt : Nat
  lastError : Option String
  shouldStopRetrying : Bool
deriving DecidableEq, Repr

/-- The retry loop of `_attemptGiftPurchase` (giftService.js 250-300).
`oracle n` is the outcome of the n-th `sendStarGift` call this identity
makes for this gift overall; `callBase` is how many such calls were made by
earlier units, so the loop consumes `oracle (callBase + attempt)`.
`remaining` is `maxAttempts - attempt`, the structural fuel of the
`while (attempt < maxAttempts && !success && !shouldStopRetrying)` loop. -/
def attemptLoop (oracle : Nat → CallResult) (markers : List String) (callBase : Nat) :
    Nat → Nat → Option String → AttemptResult
  | 0, attempt, lastError => ⟨false, attempt, lastError, false⟩
  | remaining + 1, attempt, lastError =>
    match oracle (callBase + attempt) with
    | .ok => ⟨true, attempt + 1, lastError, false⟩
    | .err msg =>
      if shouldStopRetrying msg markers then ⟨false, attempt + 1, some msg, true⟩
      else attemptLoop oracle markers callBase remaining (attempt + 1) (some msg)

/-- `_attemptGiftPurchase` (giftService.js 244-308) for one unit. -/
def attemptGiftPurchase (oracle : Nat → CallResult) (markers : List String)
    (maxAttempts callBase : Nat) : AttemptResult :=
  attemptLoop oracle markers callBase maxAttempts 0 none

/-- The per-identity summary logged at giftService.js 218-227, extended with
the total number of `sendStarGift` calls issued. -/
structure PurchaseSummary where
  successCount : Nat
  failureCount : Nat
  totalCalls : Nat
deriving DecidableEq, Repr

/-- The unit loop of `purchaseGift` (giftService.js 193-216):
`for (let i = 0; i < quantity; i++)` runs `_attemptGiftPurchase` per unit,
counts a success or a failure per unit, and breaks out of the loop when a
unit reports a non-retryable stop. -/
def purchaseLoop (oracle : Nat → CallResult) (markers : List String) (maxAttempts : Nat) :
    Nat → Nat → Nat → Nat → PurchaseSummary
  | 0, successCount, failureCount, calls => ⟨successCount, failureCount, calls⟩
  | q + 1, successCount, failureCount, calls =>
    let r := attemptGiftPurchase oracle markers maxAttempts calls
    if r.success then
      purchaseLoop oracle markers maxAttempts q (successCount + 1) failureCount
        (calls + r.attempt)
    else if r.shouldStopRetrying then
      ⟨successCount, failureCount + 1, calls + r.attempt⟩
    else
      purchaseLoop oracle markers maxAttempts q successCount (failureCount + 1)
        (calls + r.attempt)

/-- `purchaseGift` (giftService.js 165-231) for one identity and one gift:
`maxAttempts = 50` and the fixed marker table. -/
def purchaseGift (oracle : Nat → CallResult) (quantity : Nat) : PurchaseSummary :=
  purchaseLoop oracle nonRetryableErrors 50 quantity 0 0 0

/-- `purchaseGiftsWithAllClients` (giftService.js 113-156) restricted to one
gift: the per-identity quantity is
`quantity || this.config.maxGiftsToBuy || 1` (line 148) and every client
runs `purchaseGift` with it (the per-gift outer loop applies this to each
gift in turn, so the cap is per item).  `oracles` gives each client's
`sendStarGift` outcome stream. -/
def purchaseGiftsWithAllClients (oracles : List (Nat → CallResult))
    (cfgMaxGiftsToBuy : Option Nat) (quantity : Nat) : List PurchaseSummary :=
  let maxGiftsToBuy := jsOrNum quantity (jsOrNat cfgMaxGiftsToBuy 1)
  oracles.map fun oracle => purchaseGift oracle maxGiftsToBuy

/-- A forced-test override is pending for this snapshot: a test id is
configured, not yet processed, and present among the snapshot's ids.  When
this holds at the start of a non-baseline poll, the poll re-reports the test
gift even though its id is cached (giftService.js 67-70). -/
def pendingTestOverride (cfg : Config) (s : GiftServiceState) (snapshot : List Gift) : Bool :=
  match cfg.testGiftId with
  | some t => !s.testGiftProcessed && snapshot.any fun g => decide (giftKey g = t)
  | none => false

/-- Coherence of the two caches: the known-id set and the key set of the
detail map hold exactly the same ids. -/
def keysCoherent (s : GiftServiceState) : Prop :=
  ∀ k, k ∈ s.giftIdsCache ↔ k ∈ s.giftsMap.map Prod.fst

/-- Modelled from the spec (Selection Policy, spec §4.2): the claimed
selection — keep exactly the items whose `availability.total` is present
and at most the ceiling (no effective-total defaulting), ordered ascending
by `total`.  Used only to compare the claimed policy with the one the code
implements. -/
def specSelection (maxGiftSupply : Nat) (newGifts : List Gift) : List Gift :=
  (newGifts.filter fun g =>
      match g.availability with
      | some a =>
        match a.total with
        | some t => decide (t ≤ maxGiftSupply)
        | none => false
      | none => false).mergeSort
    fun a b => decide (effectiveTotal a ≤ effectiveTotal b)

/-- Concrete gift with declared total 500. -/
def gift500 : Gift := ⟨1, "Delta", some ⟨some 500, some 450⟩⟩

/-- Concrete gift with declared total 100. -/
def gift100 : Gift := ⟨2, "Bear", some ⟨some 100, some 90⟩⟩

/-- Concrete gift with declared total 700, id 9. -/
def giftAdded : Gift := ⟨9, "Rocket", some ⟨some 700, some 700⟩⟩

/-- Concrete gift whose availability block is present but whose `total` is
null/absent. -/
def giftNullTotal : Gift := ⟨3, "Unlimited", some ⟨none, none⟩⟩

/-- Concrete configuration without a forced test id. -/
def cfgPlain : Config := ⟨500, 2000, some 30, true, none⟩

/-- Concrete configuration whose forced test id is the id of `gift500`. -/
def cfgForcedTest : Config := ⟨500, 2000, some 30, true, some "1"⟩

/-- Oracle whose every call succeeds. -/
def okOracle : Nat → CallResult := fun _ => .ok

/-- Oracle whose every call fails with a transient (retryable) error. -/
def transientOracle : Nat → CallResult := fun _ => .err "FLOOD_WAIT_5"

/-- Oracle whose first two calls fail with transient errors and whose later
calls succeed. -/
def twoTransientThenOkOracle : Nat → CallResult :=
  fun n => if n < 2 then .err "FLOOD_WAIT_5" else .ok

/-- Oracle whose every call fails with a terminal error. -/
def balanceLowOracle : Nat → CallResult := fun _ => .err "BALANCE_TOO_LOW"

theorem mem_setAdd {c : List String} {x y : String} :
    x ∈ setAdd c y ↔ x ∈ c ∨ x = y := by
  unfold setAdd
  split
  · constructor
    · exact Or.inl
    · rintro (h | rfl) <;> assumption
  · simp [or_comm]

theorem mapGet_mapSet_self (m : List (String × Gift)) (k : String) (v : Gift) :
    mapGet (mapSet m k v) k = some v := by
  induction m with
  | nil => simp [mapSet, mapGet]
  | cons hd tl ih =>
    obtain ⟨k', v'⟩ := hd
    by_cases h : k' = k
    · simp [mapSet, mapGet, h]
    · simp [mapSet, mapGet, h, ih]

theorem mapGet_mapSet_ne (m : List (String × Gift)) {k k' : String} (v : Gift)
    (h : k' ≠ k) : mapGet (mapSet m k v) k' = mapGet m k' := by
  induction m with
  | nil => simp [mapSet, mapGet, Ne.symm h]
  | cons hd tl ih =>
    obtain ⟨k₀, v₀⟩ := hd
    by_cases h₀ : k₀ = k
    · subst h₀
      simp [mapSet, mapGet, Ne.symm h]
    · by_cases h₁ : k₀ = k'
      · subst h₁
        simp [mapSet, mapGet, h₀]
      · simp [mapSet, mapGet, h₀, h₁, ih]

theorem mapGet_mapSet_isSome (m : List (String × Gift)) {k : String} (k' : String)
    (v : Gift) (h : (mapGet m k).isSome = true) :
    (mapGet (mapSet m k' v) k).isSome = true := by
  by_cases hk : k = k'
  · subst hk
    simp [mapGet_mapSet_self]
  · rwa [mapGet_mapSet_ne m v hk]

theorem mem_keys_mapSet {m : List (String × Gift)} {k x : String} {v : Gift} :
    x ∈ (mapSet m k v).map Prod.fst ↔ x = k ∨ x ∈ m.map Prod.fst := by
  induction m with
  | nil => simp [mapSet]
  | cons hd tl ih =>
    obtain ⟨k₀, v₀⟩ := hd
    by_cases h₀ : k₀ = k
    · subst h₀
      simp [mapSet]
    · simp [mapSet, h₀, ih]
      tauto

theorem cacheGifts_cons (s : GiftServiceState) (g : Gift) (l : List Gift) :
    cacheGifts s (g :: l) = cacheGifts (cacheGift s g) l := rfl

theorem cacheGifts_isCheckingGifts (s : GiftServiceState) (l : List Gift) :
    (cacheGifts s l).isCheckingGifts = s.isCheckingGifts := by
  induction l generalizing s with
  | nil => rfl
  | cons g tl ih => rw [cacheGifts_cons, ih]; rfl

theorem cacheGifts_lastCheckTime (s : GiftServiceState) (l : List Gift) :
    (cacheGifts s l).lastCheckTime = s.lastCheckTime := by
  induction l generalizing s with
  | nil => rfl
  | cons g tl ih => rw [cacheGifts_cons, ih]; rfl

theorem cacheGifts_testGiftProcessed (s : GiftServiceState) (l : List Gift) :
    (cacheGifts s l).testGiftProcessed = s.testGiftProcessed := by
  induction l generalizing s with
  | nil => rfl
  | cons g tl ih => rw [cacheGifts_cons, ih]; rfl

theorem mem_cache_cacheGifts {s : GiftServiceState} {l : List Gift} {x : String} :
    x ∈ (cacheGifts s l).giftIdsCache ↔ x ∈ s.giftIdsCache ∨ x ∈ l.map giftKey := by
  induction l generalizing s with
  | nil => simp [cacheGifts]
  | cons g tl ih =>
    rw [cacheGifts_cons, ih]
    simp [cacheGift, mem_setAdd]
    tauto

theorem mapGet_cacheGifts_of_notMem {s : GiftServiceState} {l : List Gift} {k : String}
    (h : k ∉ l.map giftKey) :
    mapGet (cacheGifts s l).giftsMap k = mapGet s.giftsMap k := by
  induction l generalizing s with
  | nil => rfl
  | cons g tl ih =>
    simp only [List.map_cons, List.mem_cons] at h
    push_neg at h
    rw [cacheGifts_cons, ih h.2]
    exact mapGet_mapSet_ne _ _ h.1

theorem mapGet_cacheGifts_isSome {s : GiftServiceState} {l : List Gift} {k : String}
    (h : (mapGet s.giftsMap k).isSome = true ∨ k ∈ l.map giftKey) :
    (mapGet (cacheGifts s l).giftsMap k).isSome = true := by
  induction l generalizing s with
  | nil =>
    simpa using h.elim id (by simp)
  | cons g tl ih =>
    rw [cacheGifts_cons]
    rcases h with h | h
    · exact ih (Or.inl (mapGet_mapSet_isSome _ _ _ h))
    · simp only [List.map_cons, List.mem_cons] at h
      rcases h with rfl | h
      · exact ih (Or.inl (by simp [cacheGift, mapGet_mapSet_self]))
      · exact ih (Or.inr h)

theorem attemptLoop_ok {oracle : Nat → CallResult} {markers : List String}
    {callBase remaining attempt : Nat} {lastError : Option String}
    (h : oracle (callBase + attempt) = .ok) :
    attemptLoop oracle markers callBase (remaining + 1) attempt lastError =
      ⟨true, attempt + 1, lastError, false⟩ := by
  simp [attemptLoop, h]

theorem attemptLoop_err_stop {oracle : Nat → CallResult} {markers : List String}
    {callBase remaining attempt : Nat} {lastError : Option String} {msg : String}
    (h : oracle (callBase + attempt) = .err msg)
    (hs : shouldStopRetrying msg markers = true) :
    attemptLoop oracle markers callBase (remaining + 1) attempt lastError =
      ⟨false, attempt + 1, some msg, true⟩ := by
  simp [attemptLoop, h, hs]

theorem attemptLoop_err_cont {oracle : Nat → CallResult} {markers : List String}
    {callBase remaining attempt : Nat} {lastError : Option String} {msg : String}
    (h : oracle (callBase + attempt) = .err msg)
    (hs : shouldStopRetrying msg markers = false) :
    attemptLoop oracle markers callBase (remaining + 1) attempt lastError =
      attemptLoop oracle markers callBase remaining (attempt + 1) (some msg) := by
  simp [attemptLoop, h, hs]

theorem attemptLoop_attempt_le (oracle : Nat → CallResult) (markers : List String)
    (callBase : Nat) (remaining attempt : Nat) (lastError : Option String) :
    (attemptLoop oracle markers callBase remaining attempt lastError).attempt ≤
      attempt + remaining := by
  induction remaining generalizing attempt lastError with
  | zero => simp [attemptLoop]
  | succ r ih =>
    unfold attemptLoop
    cases oracle (callBase + attempt) with
    | ok => show attempt + 1 ≤ attempt + (r + 1); omega
    | err msg =>
      by_cases hs : shouldStopRetrying msg markers
      · simp only [hs, if_true]
        show attempt + 1 ≤ attempt + (r + 1); omega
      · simp only [hs, if_false]
        calc (attemptLoop oracle markers callBase r (attempt + 1) (some msg)).attempt
            ≤ attempt + 1 + r := ih (attempt + 1) (some msg)
          _ = attempt + (r + 1) := by omega

theorem purchaseLoop_succ (oracle : Nat → CallResult) (markers : List String)
    (maxAttempts q successCount failureCount calls : Nat) :
    purchaseLoop oracle markers maxAttempts (q + 1) successCount failureCount calls =
      if (attemptGiftPurchase oracle markers maxAttempts calls).success then
        purchaseLoop oracle markers maxAttempts q (successCount + 1) failureCount
          (calls + (attemptGiftPurchase oracle markers maxAttempts calls).attempt)
      else if (attemptGiftPurchase oracle markers maxAttempts calls).shouldStopRetrying then
        ⟨successCount, failureCount + 1,
          calls + (attemptGiftPurchase oracle markers maxAttempts calls).attempt⟩
      else
        purchaseLoop oracle markers maxAttempts q successCount (failureCount + 1)
          (calls + (attemptGiftPurchase oracle markers maxAttempts calls).attempt) := rfl

theorem purchaseLoop_units_le (oracle : Nat → CallResult) (markers : List String)
    (maxAttempts : Nat) (q successCount failureCount calls : Nat) :
    (purchaseLoop oracle markers maxAttempts q successCount failureCount calls).successCount +
        (purchaseLoop oracle markers maxAttempts q successCount failureCount calls).failureCount ≤
      successCount + failureCount + q := by
  induction q generalizing successCount failureCount calls with
  | zero => simp [purchaseLoop]
  | succ q ih =>
    rw [purchaseLoop_succ]
    split
    · calc _ ≤ successCount + 1 + failureCount + q := ih _ _ _
        _ = successCount + failureCount + (q + 1) := by omega
    · split
      · show successCount + (failureCount + 1) ≤ successCount + failureCount + (q + 1)
        omega
      · calc _ ≤ successCount + (failureCount + 1) + q := ih _ _ _
          _ = successCount + failureCount + (q + 1) := by omega

theorem purchaseLoop_calls_le (oracle : Nat → CallResult) (markers : List String)
    (maxAttempts : Nat) (q successCount failureCount calls : Nat) :
    (purchaseLoop oracle markers maxAttempts q successCount failureCount calls).totalCalls ≤
      calls + q * maxAttempts := by
  induction q generalizing successCount failureCount calls with
  | zero => simp [purchaseLoop]
  | succ q ih =>
    have hat : (attemptGiftPurchase oracle markers maxAttempts calls).attempt ≤ maxAttempts := by
      simpa using attemptLoop_attempt_le oracle markers calls maxAttempts 0 none
    have hmul : (q + 1) * maxAttempts = q * maxAttempts + maxAttempts := by
      rw [Nat.succ_mul]
    rw [purchaseLoop_succ]
    split
    · calc _ ≤ calls + (attemptGiftPurchase oracle markers maxAttempts calls).attempt +
            q * maxAttempts := ih _ _ _
        _ ≤ calls + (q + 1) * maxAttempts := by omega
    · split
      · show calls + (attemptGiftPurchase oracle markers maxAttempts calls).attempt ≤
          calls + (q + 1) * maxAttempts
        omega
      · calc _ ≤ calls + (attemptGiftPurchase oracle markers maxAttempts calls).attempt +
              q * maxAttempts := ih _ _ _
          _ ≤ calls + (q + 1) * maxAttempts := by omega

/-- Claim C3, counterexample: with quantity 2 and every `sendStarGift` call
failing with a transient error, one identity issues 100 calls for the item,
so the total is not bounded by the attempt ceiling 50. -/
theorem claimC3_counterexample :
    ¬ (purchaseGift transientOracle 2).totalCalls ≤ 50 := by decide

/-- Claim C3 (amended): the attempt ceiling bounds the `sendStarGift` calls
per unit, not per identity-per-item: an invocation of `purchaseGift` with a
given quantity issues at most `quantity * 50` acquisition calls in total. -/
theorem claimC3_attempt_budget_per_unit (oracle : Nat → CallResult) (quantity : Nat) :
    (purchaseGift oracle quantity).totalCalls ≤ quantity * 50 := by
  simpa using purchaseLoop_calls_le oracle nonRetryableErrors 50 quantity 0 0 0

/-- Claim C4, counterexample: when the first two attempts fail with a
transient error and the third succeeds (quantity 1), the per-identity
summary reports 1 success and 0 failures — not the claimed 2 failures,
because the summary counts units, not individual failed attempts. -/
theorem claimC4_counterexample :
    (purchaseGift twoTransientThenOkOracle 1).successCount = 1 ∧
      (purchaseGift twoTransientThenOkOracle 1).failureCount ≠ 2 := by decide

/-- Claim C4 (amended): if an identity's first two acquisition attempts for
an item fail with transient (retryable) errors and the third succeeds, the
per-identity summary for that unit reports 1 success and 0 failures after 3
acquisition calls: the retries stay inside one unit and only whole failed
units are counted as failures. -/
theorem claimC4_retry_then_success (oracle : Nat → CallResult) (m₀ m₁ : String)
    (h0 : oracle 0 = .err m₀) (h1 : oracle 1 = .err m₁) (h2 : oracle 2 = .ok)
    (hs0 : shouldStopRetrying m₀ nonRetryableErrors = false)
    (hs1 : shouldStopRetrying m₁ nonRetryableErrors = false) :
    purchaseGift oracle 1 = ⟨1, 0, 3⟩ := by
  have e0 : attemptLoop oracle nonRetryableErrors 0 50 0 none =
      attemptLoop oracle nonRetryableErrors 0 49 1 (some m₀) :=
    @attemptLoop_err_cont oracle nonRetryableErrors 0 49 0 none m₀ h0 hs0
  have e1 : attemptLoop oracle nonRetryableErrors 0 49 1 (some m₀) =
      attemptLoop oracle nonRetryableErrors 0 48 2 (some m₁) :=
    @attemptLoop_err_cont oracle nonRetryableErrors 0 48 1 (some m₀) m₁ h1 hs1
  have e2 : attemptLoop oracle nonRetryableErrors 0 48 2 (some m₁) =
      ⟨true, 3, some m₁, false⟩ :=
    @attemptLoop_ok oracle nonRetryableErrors 0 47 2 (some m₁) h2
  have eA : attemptGiftPurchase oracle nonRetryableErrors 50 0 = ⟨true, 3, some m₁, false⟩ := by
    unfold attemptGiftPurchase
    rw [e0, e1, e2]
  show purchaseLoop oracle nonRetryableErrors 50 (0 + 1) 0 0 0 = ⟨1, 0, 3⟩
  rw [purchaseLoop_succ, eA]
  simp [purchaseLoop]

/-- Claim C4, witness instantiation at a concrete oracle. -/
theorem claimC4_retry_then_success_witness :
    purchaseGift twoTransientThenOkOracle 1 = ⟨1, 0, 3⟩ :=
  claimC4_retry_then_success twoTransientThenOkOracle "FLOOD_WAIT_5" "FLOOD_WAIT_5"
    rfl rfl rfl (by decide) (by decide)

/-- Claim C5: if the first acquisition attempt of an identity for an item
fails with an error whose message contains a non-retryable marker, the
identity issues exactly one `sendStarGift` call in total (no retry of the
unit, no further units) and the summary reports 0 successes, 1 failure. -/
theorem claimC5_terminal_stop (oracle : Nat → CallResult) (msg : String) (quantity : Nat)
    (h0 : oracle 0 = .err msg)
    (hs : shouldStopRetrying msg nonRetryableErrors = true)
    (hq : 0 < quantity) :
    purchaseGift oracle quantity = ⟨0, 1, 1⟩ := by
  obtain ⟨q, rfl⟩ : ∃ q, quantity = q + 1 := ⟨quantity - 1, by omega⟩
  have eA : attemptGiftPurchase oracle nonRetryableErrors 50 0 =
      ⟨false, 1, some msg, true⟩ := by
    unfold attemptGiftPurchase
    exact @attemptLoop_err_stop oracle nonRetryableErrors 0 49 0 none msg h0 hs
  show purchaseLoop oracle nonRetryableErrors 50 (q + 1) 0 0 0 = ⟨0, 1, 1⟩
  rw [purchaseLoop_succ, eA]
  simp

/-- Claim C5, witness instantiation at a concrete terminal-error oracle. -/
theorem claimC5_terminal_stop_witness :
    purchaseGift balanceLowOracle 3 = ⟨0, 1, 1⟩ :=
  claimC5_terminal_stop balanceLowOracle "BALANCE_TOO_LOW" 3 rfl (by decide) (by decide)

/-- Claim C10: requesting quantity 0 ("buy all available") caps each
client's sequence at `quantity || config.maxGiftsToBuy || 1` units per item:
every per-identity summary counts at most that many units, the cap is the
configured `maxGiftsToBuy` when set and nonzero (config.js defaults it to
30) and falls back to 1 when unset. -/
theorem claimC10_zero_quantity_cap (oracles : List (Nat → CallResult))
    (cfgMaxGiftsToBuy : Option Nat) (s : PurchaseSummary)
    (hs : s ∈ purchaseGiftsWithAllClients oracles cfgMaxGiftsToBuy 0) :
    s.successCount + s.failureCount ≤ jsOrNat cfgMaxGiftsToBuy 1 ∧
      configMaxGiftsToBuy none = 30 ∧ jsOrNat (some 30) 1 = 30 ∧ jsOrNat none 1 = 1 := by
  refine ⟨?_, rfl, rfl, rfl⟩
  unfold purchaseGiftsWithAllClients at hs
  simp only [jsOrNum, if_pos rfl] at hs
  obtain ⟨o, -, rfl⟩ := List.mem_map.mp hs
  simpa [purchaseGift] using
    purchaseLoop_units_le o nonRetryableErrors 50 (jsOrNat cfgMaxGiftsToBuy 1) 0 0 0

/-- Claim C10, witness instantiation at a concrete client pool. -/
theorem claimC10_zero_quantity_cap_witness :
    (purchaseGift okOracle 30).successCount + (purchaseGift okOracle 30).failureCount ≤
        jsOrNat (some 30) 1 ∧
      configMaxGiftsToBuy none = 30 ∧ jsOrNat (some 30) 1 = 30 ∧ jsOrNat none 1 = 1 :=
  claimC10_zero_quantity_cap [okOracle] (some 30) (purchaseGift okOracle 30)
    (by simp [purchaseGiftsWithAllClients, jsOrNum, jsOrNat])

theorem markTestProcessed_giftIdsCache (cfg : Config) (s : GiftServiceState)
    (l : List Gift) : (markTestProcessed cfg s l).giftIdsCache = s.giftIdsCache := by
  unfold markTestProcessed
  split <;> first | rfl | split <;> rfl

theorem markTestProcessed_giftsMap (cfg : Config) (s : GiftServiceState)
    (l : List Gift) : (markTestProcessed cfg s l).giftsMap = s.giftsMap := by
  unfold markTestProcessed
  split <;> first | rfl | split <;> rfl

theorem markTestProcessed_isCheckingGifts (cfg : Config) (s : GiftServiceState)
    (l : List Gift) : (markTestProcessed cfg s l).isCheckingGifts = s.isCheckingGifts := by
  unfold markTestProcessed
  split <;> first | rfl | split <;> rfl

theorem markTestProcessed_lastCheckTime (cfg : Config) (s : GiftServiceState)
    (l : List Gift) : (markTestProcessed cfg s l).lastCheckTime = s.lastCheckTime := by
  unfold markTestProcessed
  split <;> first | rfl | split <;> rfl

theorem check_eq_guard {cfg : Config} {s : GiftServiceState} {now : Nat}
    (fetchResult : Option (List Gift))
    (h : s.isCheckingGifts = true ∨ now - s.lastCheckTime < cfg.checkIntervalMs) :
    checkAndPurchaseGifts cfg s now fetchResult = ⟨s, false, [], []⟩ := by
  unfold checkAndPurchaseGifts
  rcases h with h | h
  · simp [h]
  · by_cases hc : s.isCheckingGifts = true
    · simp [hc]
    · simp [hc, h]

theorem check_eq_err {cfg : Config} {s : GiftServiceState} {now : Nat}
    (h1 : s.isCheckingGifts = false)
    (h2 : cfg.checkIntervalMs ≤ now - s.lastCheckTime) :
    checkAndPurchaseGifts cfg s now none =
      ⟨{ s with lastCheckTime := now }, true, [], []⟩ := by
  unfold checkAndPurchaseGifts
  simp [h1, Nat.not_lt.mpr h2]

theorem check_eq_baseline {cfg : Config} {s : GiftServiceState} {now : Nat}
    {snapshot : List Gift}
    (h1 : s.isCheckingGifts = false)
    (h2 : cfg.checkIntervalMs ≤ now - s.lastCheckTime)
    (h3 : s.giftIdsCache = []) :
    checkAndPurchaseGifts cfg s now (some snapshot) =
      ⟨cacheGifts { s with lastCheckTime := now } snapshot, true, [], []⟩ := by
  unfold checkAndPurchaseGifts
  simp [h1, Nat.not_lt.mpr h2, h3]

theorem check_eq_delta {cfg : Config} {s : GiftServiceState} {now : Nat}
    {snapshot : List Gift}
    (h1 : s.isCheckingGifts = false)
    (h2 : cfg.checkIntervalMs ≤ now - s.lastCheckTime)
    (h3 : s.giftIdsCache ≠ []) :
    checkAndPurchaseGifts cfg s now (some snapshot) =
      ⟨cacheGifts
          (markTestProcessed cfg { s with lastCheckTime := now }
            (snapshot.filter (isNewGift cfg { s with lastCheckTime := now })))
          (snapshot.filter (isNewGift cfg { s with lastCheckTime := now })),
        true,
        snapshot.filter (isNewGift cfg { s with lastCheckTime := now }),
        if cfg.autoBuyEnabled && decide
            (0 < (snapshot.filter (isNewGift cfg { s with lastCheckTime := now })).length) then
          lowSupplyGifts cfg.maxGiftSupply
            (snapshot.filter (isNewGift cfg { s with lastCheckTime := now }))
        else []⟩ := by
  unfold checkAndPurchaseGifts
  have h3' : ¬ ({ s with lastCheckTime := now } : GiftServiceState).giftIdsCache.length = 0 := by
    simpa [List.length_eq_zero] using h3
  simp only [h1, Bool.false_eq_true, if_false, Nat.not_lt.mpr h2, h3', if_neg]

theorem mem_lowSupplyGifts {maxGiftSupply : Nat} {gifts : List Gift} {g : Gift} :
    g ∈ lowSupplyGifts maxGiftSupply gifts ↔
      g ∈ gifts ∧ g.availability.isSome = true ∧ effectiveTotal g ≤ maxGiftSupply := by
  unfold lowSupplyGifts
  rw [List.mem_mergeSort, List.mem_filter]
  simp [and_assoc]

theorem sorted_lowSupplyGifts (maxGiftSupply : Nat) (gifts : List Gift) :
    (lowSupplyGifts maxGiftSupply gifts).Pairwise
      (fun a b => effectiveTotal a ≤ effectiveTotal b) := by
  unfold lowSupplyGifts
  refine List.Pairwise.imp ?_ (List.sorted_mergeSort ?_ ?_ _)
  · intro a b h
    exact of_decide_eq_true h
  · intro a b c hab hbc
    simp only [decide_eq_true_eq] at *
    omega
  · intro a b
    simp only [Bool.or_eq_true, decide_eq_true_eq]
    exact Nat.le_total _ _

/-- Claim C2, counterexample: under supply ceiling 10000000, an item whose
availability block is present but whose `total` is null/absent is selected
by the code (its effective total is the fallback 10000000), while the
claimed policy — keep only items with a present `total` at most the
ceiling — excludes it.  So such items are not "always excluded". -/
theorem claimC2_counterexample :
    giftNullTotal ∈ lowSupplyGifts 10000000 [giftNullTotal] ∧
      specSelection 10000000 [giftNullTotal] = [] := by
  constructor
  · exact mem_lowSupplyGifts.mpr ⟨by decide, by decide, by decide⟩
  · refine List.eq_nil_iff_forall_not_mem.mpr fun g hg => ?_
    unfold specSelection at hg
    rw [List.mem_mergeSort, List.mem_filter] at hg
    obtain ⟨hg1, hg2⟩ := hg
    have : g = giftNullTotal := by simpa using hg1
    subst this
    simp [giftNullTotal] at hg2

/-- Claim C2 (amended): the auto-acquisition subset consists exactly of the
newly-seen items with an availability block whose effective total
(`availability.total || 10000000`, so a null/absent or zero total counts as
10000000) is at most the configured ceiling, ordered ascending by effective
total; items with no availability block are always excluded, items with
null/absent/zero total are excluded exactly when the ceiling is below
10000000; an item with total 500 is selected under ceiling 1000 and not
under ceiling 100. -/
theorem claimC2_selection_policy :
    (∀ maxGiftSupply gifts (g : Gift),
        g ∈ lowSupplyGifts maxGiftSupply gifts ↔
          g ∈ gifts ∧ g.availability.isSome = true ∧ effectiveTotal g ≤ maxGiftSupply) ∧
      (∀ maxGiftSupply gifts,
        (lowSupplyGifts maxGiftSupply gifts).Pairwise
          (fun a b => effectiveTotal a ≤ effectiveTotal b)) ∧
      gift500 ∈ lowSupplyGifts 1000 [gift500] ∧
      gift500 ∉ lowSupplyGifts 100 [gift500] := by
  refine ⟨fun _ _ _ => mem_lowSupplyGifts, sorted_lowSupplyGifts,
    mem_lowSupplyGifts.mpr ⟨by decide, by decide, by decide⟩,
    fun hm => absurd (mem_lowSupplyGifts.mp hm).2.2 (by decide)⟩

/-- Claim C8: a call made while a previous one is in flight, or before
`checkIntervalMs` has elapsed since the last started poll, fetches no
snapshot, emits nothing, and leaves the whole state — `giftIdsCache`,
`giftsMap`, `testGiftProcessed` and `lastCheckTime` — unchanged. -/
theorem claimC8_guard_noop (cfg : Config) (s : GiftServiceState) (now : Nat)
    (fetchResult : Option (List Gift))
    (h : s.isCheckingGifts = true ∨ now - s.lastCheckTime < cfg.checkIntervalMs) :
    checkAndPurchaseGifts cfg s now fetchResult = ⟨s, false, [], []⟩ :=
  check_eq_guard fetchResult h

/-- Claim C8, witness: a call 100 ms after the last started poll with a
500 ms interval is a no-op. -/
theorem claimC8_guard_noop_witness :
    checkAndPurchaseGifts cfgPlain { initialState with lastCheckTime := 900 } 1000
        (some [gift500]) =
      ⟨{ initialState with lastCheckTime := 900 }, false, [], []⟩ :=
  claimC8_guard_noop cfgPlain { initialState with lastCheckTime := 900 } 1000
    (some [gift500]) (Or.inr (by decide))

theorem keysCoherent_cacheGift {s : GiftServiceState} (h : keysCoherent s) (g : Gift) :
    keysCoherent (cacheGift s g) := by
  intro k
  simp only [cacheGift, mem_setAdd, mem_keys_mapSet, h k]
  tauto

theorem keysCoherent_cacheGifts {s : GiftServiceState} (h : keysCoherent s)
    (l : List Gift) : keysCoherent (cacheGifts s l) := by
  induction l generalizing s with
  | nil => exact h
  | cons g tl ih =>
    rw [cacheGifts_cons]
    exact ih (keysCoherent_cacheGift h g)

theorem keysCoherent_markTestProcessed {cfg : Config} {s : GiftServiceState}
    (h : keysCoherent s) (l : List Gift) : keysCoherent (markTestProcessed cfg s l) := by
  intro k
  rw [markTestProcessed_giftIdsCache, markTestProcessed_giftsMap]
  exact h k

/-- Claim C9: the detail map's key set and the known-id set coincide after
construction, and every completed call of `checkAndPurchaseGifts` — guard
no-ops, snapshot-fetch errors, baseline and delta polls alike — preserves
the coincidence; hence a manual purchase by id finds a cached gift object
for every id ever discovered. -/
theorem claimC9_keys_coherence :
    keysCoherent initialState ∧
      ∀ cfg s now fetchResult, keysCoherent s →
        keysCoherent (checkAndPurchaseGifts cfg s now fetchResult).state := by
  constructor
  · intro k
    simp [initialState]
  · intro cfg s now fetchResult h
    by_cases hg : s.isCheckingGifts = true ∨ now - s.lastCheckTime < cfg.checkIntervalMs
    · rw [check_eq_guard fetchResult hg]
      exact h
    · push_neg at hg
      obtain ⟨h1, h2⟩ := hg
      replace h1 : s.isCheckingGifts = false := by simpa using h1
      have h' : keysCoherent { s with lastCheckTime := now } := fun k => h k
      cases fetchResult with
      | none =>
        rw [check_eq_err h1 h2]
        exact h'
      | some snapshot =>
        by_cases h3 : s.giftIdsCache = []
        · rw [check_eq_baseline h1 h2 h3]
          exact keysCoherent_cacheGifts h' snapshot
        · rw [check_eq_delta h1 h2 h3]
          exact keysCoherent_cacheGifts (keysCoherent_markTestProcessed h' _) _

/-- Claim C9, witness: the invariant holds after a concrete baseline poll. -/
theorem claimC9_keys_coherence_witness :
    keysCoherent (checkAndPurchaseGifts cfgPlain initialState 1000 (some [gift500])).state :=
  claimC9_keys_coherence.2 cfgPlain initialState 1000 (some [gift500])
    (fun k => by simp [initialState])

theorem isNewGift_of_no_testGiftId {cfg : Config} {s : GiftServiceState}
    (hTest : cfg.testGiftId = none) (g : Gift) :
    isNewGift cfg s g = !(decide (giftKey g ∈ s.giftIdsCache)) := by
  simp [isNewGift, hTest]

theorem markTestProcessed_of_no_testGiftId {cfg : Config} {s : GiftServiceState}
    (hTest : cfg.testGiftId = none) (l : List Gift) :
    markTestProcessed cfg s l = s := by
  simp [markTestProcessed, hTest]

/-- Claim C1, counterexample: with an empty baseline snapshot the known-id
set stays empty, so the next poll is again treated as a first run and the
added item is not reported as newly discovered — the claimed property fails
for S₁ = []. -/
theorem claimC1_counterexample :
    (checkAndPurchaseGifts cfgPlain
        (checkAndPurchaseGifts cfgPlain initialState 1000 (some [])).state 2000
        (some [giftAdded])).discovered = [] ∧
      ([] : List Gift) ≠ [giftAdded] := by
  exact ⟨rfl, by decide⟩

/-- Claim C1 (amended): for a nonempty baseline snapshot S₁ and no
configured forced-test id, the first poll emits no discovery events and
caches every item of S₁ in the known-id set and the detail map, and a
second poll on S₁ with one item X of fresh id appended reports exactly [X]
as newly discovered and stores X in the detail map with its attributes from
the second snapshot. -/
theorem claimC1_baseline_then_delta (cfg : Config) (s₁ : List Gift) (x : Gift)
    (now₁ now₂ : Nat)
    (hTest : cfg.testGiftId = none)
    (hS : s₁ ≠ [])
    (hX : giftKey x ∉ s₁.map giftKey)
    (ht₁ : cfg.checkIntervalMs ≤ now₁)
    (ht₂ : cfg.checkIntervalMs ≤ now₂ - now₁) :
    (checkAndPurchaseGifts cfg initialState now₁ (some s₁)).discovered = [] ∧
      (∀ g ∈ s₁,
        giftKey g ∈ (checkAndPurchaseGifts cfg initialState now₁ (some s₁)).state.giftIdsCache ∧
        (mapGet (checkAndPurchaseGifts cfg initialState now₁ (some s₁)).state.giftsMap
          (giftKey g)).isSome = true) ∧
      (checkAndPurchaseGifts cfg
          (checkAndPurchaseGifts cfg initialState now₁ (some s₁)).state now₂
          (some (s₁ ++ [x]))).discovered = [x] ∧
      mapGet (checkAndPurchaseGifts cfg
          (checkAndPurchaseGifts cfg initialState now₁ (some s₁)).state now₂
          (some (s₁ ++ [x]))).state.giftsMap (giftKey x) = some x := by
  have e₁ : checkAndPurchaseGifts cfg initialState now₁ (some s₁) =
      ⟨cacheGifts { initialState with lastCheckTime := now₁ } s₁, true, [], []⟩ :=
    check_eq_baseline rfl (by simpa using ht₁) rfl
  set st₁ := cacheGifts { initialState with lastCheckTime := now₁ } s₁ with hst₁
  have hmem₁ : ∀ k, k ∈ st₁.giftIdsCache ↔ k ∈ s₁.map giftKey := by
    intro k
    rw [hst₁, mem_cache_cacheGifts]
    simp [initialState]
  have hcache : ∀ g ∈ s₁, giftKey g ∈ st₁.giftIdsCache := fun g hg =>
    (hmem₁ (giftKey g)).mpr (List.mem_map_of_mem giftKey hg)
  have hne : st₁.giftIdsCache ≠ [] := by
    obtain ⟨g₀, tl, rfl⟩ : ∃ g₀ tl, s₁ = g₀ :: tl := by
      cases s₁ with
      | nil => exact absurd rfl hS
      | cons g₀ tl => exact ⟨g₀, tl, rfl⟩
    exact List.ne_nil_of_mem (hcache g₀ (List.mem_cons_self g₀ tl))
  have hchk : st₁.isCheckingGifts = false := by
    rw [hst₁, cacheGifts_isCheckingGifts]
    rfl
  have hlast : st₁.lastCheckTime = now₁ := by
    rw [hst₁, cacheGifts_lastCheckTime]
  have hfilter : (s₁ ++ [x]).filter (isNewGift cfg { st₁ with lastCheckTime := now₂ }) =
      [x] := by
    rw [List.filter_append]
    have h₁ : s₁.filter (isNewGift cfg { st₁ with lastCheckTime := now₂ }) = [] := by
      rw [List.filter_eq_nil_iff]
      intro g hg
      rw [isNewGift_of_no_testGiftId hTest]
      simpa using hcache g hg
    have h₂ : [x].filter (isNewGift cfg { st₁ with lastCheckTime := now₂ }) = [x] := by
      rw [List.filter_cons]
      rw [isNewGift_of_no_testGiftId hTest]
      have : giftKey x ∉ st₁.giftIdsCache := fun hmem => hX ((hmem₁ (giftKey x)).mp hmem)
      simp [this]
    rw [h₁, h₂, List.nil_append]
  have e₂ : checkAndPurchaseGifts cfg st₁ now₂ (some (s₁ ++ [x])) =
      ⟨cacheGifts
          (markTestProcessed cfg { st₁ with lastCheckTime := now₂ }
            ((s₁ ++ [x]).filter (isNewGift cfg { st₁ with lastCheckTime := now₂ })))
          ((s₁ ++ [x]).filter (isNewGift cfg { st₁ with lastCheckTime := now₂ })),
        true,
        (s₁ ++ [x]).filter (isNewGift cfg { st₁ with lastCheckTime := now₂ }),
        if cfg.autoBuyEnabled && decide
            (0 < ((s₁ ++ [x]).filter
              (isNewGift cfg { st₁ with lastCheckTime := now₂ })).length) then
          lowSupplyGifts cfg.maxGiftSupply
            ((s₁ ++ [x]).filter (isNewGift cfg { st₁ with lastCheckTime := now₂ }))
        else []⟩ :=
    check_eq_delta hchk (by rw [hlast]; exact ht₂) hne
  rw [e₁, e₂, hfilter, markTestProcessed_of_no_testGiftId hTest]
  refine ⟨rfl, ?_, rfl, ?_⟩
  · intro g hg
    refine ⟨hcache g hg, ?_⟩
    rw [hst₁]
    exact mapGet_cacheGifts_isSome (Or.inr (List.mem_map_of_mem giftKey hg))
  · show mapGet (cacheGift { st₁ with lastCheckTime := now₂ } x).giftsMap (giftKey x) = some x
    exact mapGet_mapSet_self _ _ _

/-- Claim C1, witness instantiation at a concrete baseline of two gifts. -/
theorem claimC1_baseline_then_delta_witness :
    (checkAndPurchaseGifts cfgPlain initialState 1000 (some [gift500, gift100])).discovered =
        [] ∧
      (∀ g ∈ [gift500, gift100],
        giftKey g ∈ (checkAndPurchaseGifts cfgPlain initialState 1000
          (some [gift500, gift100])).state.giftIdsCache ∧
        (mapGet (checkAndPurchaseGifts cfgPlain initialState 1000
          (some [gift500, gift100])).state.giftsMap (giftKey g)).isSome = true) ∧
      (checkAndPurchaseGifts cfgPlain
          (checkAndPurchaseGifts cfgPlain initialState 1000
            (some [gift500, gift100])).state 2000
          (some ([gift500, gift100] ++ [giftAdded]))).discovered = [giftAdded] ∧
      mapGet (checkAndPurchaseGifts cfgPlain
          (checkAndPurchaseGifts cfgPlain initialState 1000
            (some [gift500, gift100])).state 2000
          (some ([gift500, gift100] ++ [giftAdded]))).state.giftsMap (giftKey giftAdded) =
        some giftAdded :=
  claimC1_baseline_then_delta cfgPlain [gift500, gift100] giftAdded 1000 2000
    rfl (by decide) (by decide) (by decide) (by decide)

theorem ids_subset_of_fetched {cfg : Config} {s : GiftServiceState} {now : Nat}
    {snapshot : List Gift}
    (h : (checkAndPurchaseGifts cfg s now (some snapshot)).fetched = true) :
    ∀ g ∈ snapshot,
      giftKey g ∈ (checkAndPurchaseGifts cfg s now (some snapshot)).state.giftIdsCache := by
  intro g hg
  by_cases hgrd : s.isCheckingGifts = true ∨ now - s.lastCheckTime < cfg.checkIntervalMs
  · rw [check_eq_guard (some snapshot) hgrd] at h
    cases h
  · push_neg at hgrd
    obtain ⟨h1, h2⟩ := hgrd
    replace h1 : s.isCheckingGifts = false := by simpa using h1
    by_cases h3 : s.giftIdsCache = []
    · rw [check_eq_baseline h1 h2 h3]
      exact mem_cache_cacheGifts.mpr (Or.inr (List.mem_map_of_mem giftKey hg))
    · rw [check_eq_delta h1 h2 h3]
      by_cases hc : giftKey g ∈ s.giftIdsCache
      · refine mem_cache_cacheGifts.mpr (Or.inl ?_)
        rwa [markTestProcessed_giftIdsCache]
      · refine mem_cache_cacheGifts.mpr (Or.inr ?_)
        refine List.mem_map_of_mem giftKey (List.mem_filter.mpr ⟨hg, ?_⟩)
        have : (decide (giftKey g ∈
            ({ s with lastCheckTime := now } : GiftServiceState).giftIdsCache)) = false := by
          simpa using hc
        simp [isNewGift, this]

theorem discovered_nil_of_covered {cfg : Config} {s : GiftServiceState} {now : Nat}
    {snapshot : List Gift}
    (hsub : ∀ g ∈ snapshot, giftKey g ∈ s.giftIdsCache)
    (hpend : pendingTestOverride cfg s snapshot = false) :
    (checkAndPurchaseGifts cfg s now (some snapshot)).discovered = [] := by
  by_cases hgrd : s.isCheckingGifts = true ∨ now - s.lastCheckTime < cfg.checkIntervalMs
  · rw [check_eq_guard (some snapshot) hgrd]
  · push_neg at hgrd
    obtain ⟨h1, h2⟩ := hgrd
    replace h1 : s.isCheckingGifts = false := by simpa using h1
    by_cases h3 : s.giftIdsCache = []
    · rw [check_eq_baseline h1 h2 h3]
    · rw [check_eq_delta h1 h2 h3]
      show List.filter _ snapshot = []
      rw [List.filter_eq_nil_iff]
      intro g hg
      have hc : (decide (giftKey g ∈
          ({ s with lastCheckTime := now } : GiftServiceState).giftIdsCache)) = true := by
        simpa using hsub g hg
      unfold isNewGift
      rw [hc]
      cases htid : cfg.testGiftId with
      | none => simp
      | some t =>
        unfold pendingTestOverride at hpend
        rw [htid] at hpend
        simp only [Bool.not_or, Bool.not_true, Bool.false_or, Bool.not_eq_true] at *
        cases hproc : s.testGiftProcessed with
        | true => simp
        | false =>
          rw [hproc] at hpend
          simp only [Bool.not_false, Bool.true_and] at hpend
          have := List.any_eq_false.mp hpend g hg
          simp only [Bool.not_eq_true] at this
          simp [this]

/-- Claim C6, counterexample: with a forced test id configured (here the id
of `gift500`, cached by the baseline poll), polling twice in succession with
the unchanged snapshot produces one discovery event on the second call, so
the second call's delta is not empty for every configuration and reachable
state. -/
theorem claimC6_counterexample :
    (checkAndPurchaseGifts cfgForcedTest
        (checkAndPurchaseGifts cfgForcedTest initialState 1000 (some [gift500])).state 2000
        (some [gift500])).discovered = [gift500] ∧
      [gift500] ≠ ([] : List Gift) :=
  ⟨rfl, by decide⟩

/-- Claim C6 (amended): polling twice in succession with an unchanged
snapshot produces zero discovery events on the second call, provided the
first call actually fetched the snapshot (was not suppressed by the
in-flight guard or the rate gate) and no forced-test override is still
pending for an id of the snapshot when the second call starts. -/
theorem claimC6_idempotence (cfg : Config) (s : GiftServiceState)
    (snapshot : List Gift) (now₁ now₂ : Nat)
    (hfetch : (checkAndPurchaseGifts cfg s now₁ (some snapshot)).fetched = true)
    (hpend : pendingTestOverride cfg
        (checkAndPurchaseGifts cfg s now₁ (some snapshot)).state snapshot = false) :
    (checkAndPurchaseGifts cfg
        (checkAndPurchaseGifts cfg s now₁ (some snapshot)).state now₂
        (some snapshot)).discovered = [] :=
  discovered_nil_of_covered (ids_subset_of_fetched hfetch) hpend

/-- Claim C6, witness: a baseline poll followed by an identical poll, with
no forced test id configured. -/
theorem claimC6_idempotence_witness :
    (checkAndPurchaseGifts cfgPlain
        (checkAndPurchaseGifts cfgPlain initialState 1000 (some [gift500])).state 2000
        (some [gift500])).discovered = [] :=
  claimC6_idempotence cfgPlain initialState [gift500] 1000 2000 rfl rfl

theorem markTestProcessed_processed_mono {cfg : Config} {s : GiftServiceState}
    (l : List Gift) (h : s.testGiftProcessed = true) :
    (markTestProcessed cfg s l).testGiftProcessed = true := by
  unfold markTestProcessed
  split
  · split
    · rfl
    · exact h
  · exact h

theorem check_cache_mono {cfg : Config} {s : GiftServiceState} {now : Nat}
    {fetchResult : Option (List Gift)} {x : String} (h : x ∈ s.giftIdsCache) :
    x ∈ (checkAndPurchaseGifts cfg s now fetchResult).state.giftIdsCache := by
  by_cases hgrd : s.isCheckingGifts = true ∨ now - s.lastCheckTime < cfg.checkIntervalMs
  · rwa [check_eq_guard fetchResult hgrd]
  · push_neg at hgrd
    obtain ⟨h1, h2⟩ := hgrd
    replace h1 : s.isCheckingGifts = false := by simpa using h1
    cases fetchResult with
    | none => rw [check_eq_err h1 h2]; exact h
    | some snapshot =>
      by_cases h3 : s.giftIdsCache = []
      · rw [check_eq_baseline h1 h2 h3]
        exact mem_cache_cacheGifts.mpr (Or.inl h)
      · rw [check_eq_delta h1 h2 h3]
        refine mem_cache_cacheGifts.mpr (Or.inl ?_)
        rwa [markTestProcessed_giftIdsCache]

theorem check_processed_mono {cfg : Config} {s : GiftServiceState} {now : Nat}
    {fetchResult : Option (List Gift)} (h : s.testGiftProcessed = true) :
    (checkAndPurchaseGifts cfg s now fetchResult).state.testGiftProcessed = true := by
  by_cases hgrd : s.isCheckingGifts = true ∨ now - s.lastCheckTime < cfg.checkIntervalMs
  · rwa [check_eq_guard fetchResult hgrd]
  · push_neg at hgrd
    obtain ⟨h1, h2⟩ := hgrd
    replace h1 : s.isCheckingGifts = false := by simpa using h1
    cases fetchResult with
    | none => rw [check_eq_err h1 h2]; exact h
    | some snapshot =>
      by_cases h3 : s.giftIdsCache = []
      · rw [check_eq_baseline h1 h2 h3, cacheGifts_testGiftProcessed]
        exact h
      · rw [check_eq_delta h1 h2 h3, cacheGifts_testGiftProcessed]
        exact markTestProcessed_processed_mono _ h

theorem check_no_report_of_processed {cfg : Config} {s : GiftServiceState} {now : Nat}
    {fetchResult : Option (List Gift)} {t : String}
    (htest : cfg.testGiftId = some t)
    (hproc : s.testGiftProcessed = true) (hcache : t ∈ s.giftIdsCache) :
    (checkAndPurchaseGifts cfg s now fetchResult).discovered.countP
      (fun g => decide (giftKey g = t)) = 0 := by
  by_cases hgrd : s.isCheckingGifts = true ∨ now - s.lastCheckTime < cfg.checkIntervalMs
  · rw [check_eq_guard fetchResult hgrd]
    rfl
  · push_neg at hgrd
    obtain ⟨h1, h2⟩ := hgrd
    replace h1 : s.isCheckingGifts = false := by simpa using h1
    cases fetchResult with
    | none => rw [check_eq_err h1 h2]; rfl
    | some snapshot =>
      by_cases h3 : s.giftIdsCache = []
      · rw [check_eq_baseline h1 h2 h3]
        rfl
      · rw [check_eq_delta h1 h2 h3]
        show List.countP _ (List.filter _ snapshot) = 0
        rw [List.countP_filter, List.countP_eq_zero]
        intro g hg
        by_cases hk : giftKey g = t
        · have hmem : (decide (giftKey g ∈
              ({ s with lastCheckTime := now } : GiftServiceState).giftIdsCache)) = true := by
            rw [hk]; simpa using hcache
          simp [isNewGift, htest, hmem, hproc]
        · simp [hk]

theorem check_report_iff_marks {cfg : Config} {s : GiftServiceState} {now : Nat}
    {fetchResult : Option (List Gift)} {t : String}
    (htest : cfg.testGiftId = some t)
    (hproc : s.testGiftProcessed = false)
    (hcount : (fetchResult.getD []).countP (fun g => decide (giftKey g = t)) ≤ 1) :
    ((checkAndPurchaseGifts cfg s now fetchResult).discovered.countP
        (fun g => decide (giftKey g = t)) =
      if (checkAndPurchaseGifts cfg s now fetchResult).state.testGiftProcessed = true
        then 1 else 0) ∧
    ((checkAndPurchaseGifts cfg s now fetchResult).state.testGiftProcessed = true →
      t ∈ (checkAndPurchaseGifts cfg s now fetchResult).state.giftIdsCache) := by
  by_cases hgrd : s.isCheckingGifts = true ∨ now - s.lastCheckTime < cfg.checkIntervalMs
  · rw [check_eq_guard fetchResult hgrd]
    exact ⟨by simp [hproc], fun h => absurd h (by simp [hproc])⟩
  · push_neg at hgrd
    obtain ⟨h1, h2⟩ := hgrd
    replace h1 : s.isCheckingGifts = false := by simpa using h1
    cases fetchResult with
    | none =>
      rw [check_eq_err h1 h2]
      exact ⟨by simp [hproc], fun h => absurd h (by simp [hproc])⟩
    | some snapshot =>
      by_cases h3 : s.giftIdsCache = []
      · rw [check_eq_baseline h1 h2 h3]
        rw [show (cacheGifts { s with lastCheckTime := now } snapshot).testGiftProcessed =
          s.testGiftProcessed from cacheGifts_testGiftProcessed _ _]
        exact ⟨by simp [hproc], fun h => absurd h (by simp [hproc])⟩
      · rw [check_eq_delta h1 h2 h3]
        simp only [cacheGifts_testGiftProcessed]
        cases hA : (snapshot.filter
            (isNewGift cfg { s with lastCheckTime := now })).any
            (fun g => decide (giftKey g = t)) with
        | true =>
          have hmarked :
              GiftServiceState.testGiftProcessed
                (markTestProcessed cfg { s with lastCheckTime := now }
                  (snapshot.filter (isNewGift cfg { s with lastCheckTime := now }))) = true := by
            unfold markTestProcessed
            rw [htest]
            simp only [hA, if_true]
          have hpos : 0 < (snapshot.filter
              (isNewGift cfg { s with lastCheckTime := now })).countP
                (fun g => decide (giftKey g = t)) := by
            rw [List.countP_pos_iff]
            obtain ⟨g, hg, hgt⟩ := List.any_eq_true.mp hA
            exact ⟨g, hg, hgt⟩
          have hle : (snapshot.filter
              (isNewGift cfg { s with lastCheckTime := now })).countP
                (fun g => decide (giftKey g = t)) ≤ 1 := by
            calc _ = snapshot.countP (fun g => decide (giftKey g = t) &&
                  isNewGift cfg { s with lastCheckTime := now } g) :=
                List.countP_filter _ _ _
              _ ≤ snapshot.countP (fun g => decide (giftKey g = t)) :=
                List.countP_mono_left (fun g _ hb => (Bool.and_eq_true _ _).mp hb |>.1
                  )
              _ ≤ 1 := hcount
          refine ⟨?_, fun _ => ?_⟩
          · rw [hmarked, if_pos rfl]
            omega
          · obtain ⟨g, hg, hgt⟩ := List.any_eq_true.mp hA
            refine mem_cache_cacheGifts.mpr (Or.inr ?_)
            have : giftKey g = t := of_decide_eq_true hgt
            rw [← this]
            exact List.mem_map_of_mem giftKey hg
        | false =>
          have hmarked :
              GiftServiceState.testGiftProcessed
                (markTestProcessed cfg { s with lastCheckTime := now }
                  (snapshot.filter (isNewGift cfg { s with lastCheckTime := now }))) = false := by
            unfold markTestProcessed
            rw [htest]
            simp only [hA, if_false]
            exact hproc
          have hzero : (snapshot.filter
              (isNewGift cfg { s with lastCheckTime := now })).countP
                (fun g => decide (giftKey g = t)) = 0 := by
            rw [List.countP_eq_zero]
            intro g hg
            simpa using List.any_eq_false.mp hA g hg
          exact ⟨by rw [hmarked]; simpa using hzero,
            fun h => absurd h (by simp [hmarked])⟩

theorem runPolls_cons (cfg : Config) (s : GiftServiceState) (now : Nat)
    (f : Option (List Gift)) (rest : List (Nat × Option (List Gift))) :
    runPolls cfg s ((now, f) :: rest) =
      ((runPolls cfg (checkAndPurchaseGifts cfg s now f).state rest).1,
        (checkAndPurchaseGifts cfg s now f).discovered ++
          (runPolls cfg (checkAndPurchaseGifts cfg s now f).state rest).2) := rfl

theorem runPolls_test_count {cfg : Config} {t : String}
    (htest : cfg.testGiftId = some t) :
    ∀ (polls : List (Nat × Option (List Gift))) (s : GiftServiceState),
      (∀ p ∈ polls, ((p.2).getD []).countP (fun g => decide (giftKey g = t)) ≤ 1) →
      (s.testGiftProcessed = true → t ∈ s.giftIdsCache) →
      ((runPolls cfg s polls).2.countP (fun g => decide (giftKey g = t)) =
        if (runPolls cfg s polls).1.testGiftProcessed = true ∧ s.testGiftProcessed = false
          then 1 else 0) ∧
      ((runPolls cfg s polls).1.testGiftProcessed = true →
        t ∈ (runPolls cfg s polls).1.giftIdsCache) ∧
      (s.testGiftProcessed = true → (runPolls cfg s polls).1.testGiftProcessed = true) := by
  intro polls
  induction polls with
  | nil =>
    intro s hc hinv
    refine ⟨?_, hinv, fun h => h⟩
    cases hp : s.testGiftProcessed <;> simp [runPolls, hp]
  | cons p rest ih =>
    intro s hc hinv
    obtain ⟨now, f⟩ := p
    have hcRest : ∀ q ∈ rest, ((q.2).getD []).countP (fun g => decide (giftKey g = t)) ≤ 1 :=
      fun q hq => hc q (List.mem_cons_of_mem _ hq)
    rw [runPolls_cons]
    cases hp : s.testGiftProcessed with
    | true =>
      have h0 : (checkAndPurchaseGifts cfg s now f).discovered.countP
          (fun g => decide (giftKey g = t)) = 0 :=
        check_no_report_of_processed htest hp (hinv hp)
      have hrp : (checkAndPurchaseGifts cfg s now f).state.testGiftProcessed = true :=
        check_processed_mono hp
      obtain ⟨ih1, ih2, ih3⟩ := ih (checkAndPurchaseGifts cfg s now f).state hcRest
        (fun _ => check_cache_mono (hinv hp))
      refine ⟨?_, ih2, fun _ => ih3 hrp⟩
      rw [List.countP_append, h0, ih1]
      simp [hrp, hp]
    | false =>
      obtain ⟨hstep1, hstep2⟩ := check_report_iff_marks htest hp
        (hc (now, f) (List.mem_cons_self _ _))
      cases hrp : (checkAndPurchaseGifts cfg s now f).state.testGiftProcessed with
      | true =>
        obtain ⟨ih1, ih2, ih3⟩ := ih (checkAndPurchaseGifts cfg s now f).state hcRest
          (fun _ => hstep2 hrp)
        refine ⟨?_, ih2, fun hcontr => absurd hcontr (by simp [hp])⟩
        rw [List.countP_append, hstep1, ih1, hrp]
        simp [ih3 hrp, hp]
      | false =>
        obtain ⟨ih1, ih2, ih3⟩ := ih (checkAndPurchaseGifts cfg s now f).state hcRest
          (fun hcontr => absurd hcontr (by simp [hrp]))
        refine ⟨?_, ih2, fun hcontr => absurd hcontr (by simp [hp])⟩
        rw [List.countP_append, hstep1, ih1, hrp]
        simp [hp]

/-- Claim C7: with a forced test id `t` configured, over any whole sequence
of polls from the freshly constructed state (each snapshot containing at
most one gift with id `t`), the number of discovery reports carrying id `t`
equals 1 when the run ends with `testGiftProcessed` set and 0 otherwise: in
particular the forced re-report of an already-cached id happens at most
once over the whole lifetime, exactly at the poll that sets the flag, and
the id never appears in a later delta. -/
theorem claimC7_forced_test_once (cfg : Config) (t : String)
    (polls : List (Nat × Option (List Gift)))
    (htest : cfg.testGiftId = some t)
    (hsnap : ∀ p ∈ polls,
      ((p.2).getD []).countP (fun g => decide (giftKey g = t)) ≤ 1) :
    (runPolls cfg initialState polls).2.countP (fun g => decide (giftKey g = t)) =
      if (runPolls cfg initialState polls).1.testGiftProcessed = true then 1 else 0 := by
  obtain ⟨h1, -, -⟩ := runPolls_test_count htest polls initialState hsnap
    (fun h => absurd h (by simp [initialState]))
  rw [h1]
  simp [initialState]

/-- Claim C7, witness: a baseline poll caching the test gift, then two
further identical polls; the already-cached id is re-reported exactly
once. -/
theorem claimC7_forced_test_once_witness :
    (runPolls cfgForcedTest initialState
        [(1000, some [gift500]), (2000, some [gift500]),
          (3000, some [gift500])]).2.countP (fun g => decide (giftKey g = "1")) =
      if (runPolls cfgForcedTest initialState
          [(1000, some [gift500]), (2000, some [gift500]),
            (3000, some [gift500])]).1.testGiftProcessed = true then 1 else 0 :=
  claimC7_forced_test_once cfgForcedTest "1"
    [(1000, some [gift500]), (2000, some [gift500]), (3000, some [gift500])]
    rfl (by decide)

end GiftBot
